import Mathlib

/-!
Shallow embedding of `src/app.py` (a minimal Flask static-file server):
its two route handlers (`index`, `health_check`), the two registered error
handlers (`not_found`, `internal_error`), the startup configuration read from
the environment (`PORT`, `FLASK_ENV`, `MAX_CONTENT_LENGTH`), and the request
dispatch lifecycle of the host framework as described by the specification.

Python `datetime.utcnow()` values are modelled as a record of calendar fields
(this is exactly the data a `datetime` object carries), and
`datetime.isoformat()` is modelled character by character.
-/

/-- A calendar timestamp, the data carried by a Python `datetime` value as
returned by `datetime.utcnow()` in `src/app.py` line 27. -/
structure DateTime where
  year : Nat
  month : Nat
  day : Nat
  hour : Nat
  minute : Nat
  second : Nat
  microsecond : Nat
deriving DecidableEq, Repr

/-- Gregorian leap-year rule, as in Python's `calendar.isleap`. -/
def isLeapYear (y : Nat) : Bool :=
  (y % 4 == 0 && y % 100 != 0) || y % 400 == 0

/-- Number of days in a month of a given year. -/
def daysInMonth (y m : Nat) : Nat :=
  if m = 2 then (if isLeapYear y then 29 else 28)
  else if m = 4 ∨ m = 6 ∨ m = 9 ∨ m = 11 then 30
  else 31

/-- The invariants Python's `datetime` enforces on its fields
(`MINYEAR = 1`, `MAXYEAR = 9999`, valid month, day, time of day). -/
def DateTime.isValid (d : DateTime) : Bool :=
  1 ≤ d.year && d.year ≤ 9999 &&
  1 ≤ d.month && d.month ≤ 12 &&
  1 ≤ d.day && d.day ≤ daysInMonth d.year d.month &&
  d.hour ≤ 23 && d.minute ≤ 59 && d.second ≤ 59 &&
  d.microsecond ≤ 999999

/-- Flattening of a timestamp to a single number that orders timestamps
exactly as Python orders `datetime` values (field-lexicographically). -/
def DateTime.key (d : DateTime) : Nat :=
  ((((d.year * 13 + d.month) * 32 + d.day) * 24 + d.hour) * 60 + d.minute)
      * 60000000 + d.second * 1000000 + d.microsecond

/-- The decimal digit character for `n < 10`. -/
def digitChar (n : Nat) : Char := Char.ofNat (48 + n)

/-- Fixed-width zero-padded decimal rendering, most significant digit first;
models the `%04d`-style padding `datetime.isoformat` applies to each field. -/
def padDigits : Nat → Nat → List Char
  | 0, _ => []
  | w + 1, n => digitChar (n / 10 ^ w) :: padDigits w (n % 10 ^ w)

/-- Read exactly `w` decimal digits from the front of `cs`, extending the
accumulator `acc`; fails when a non-digit appears or input runs out. -/
def readDigits : Nat → Nat → List Char → Option (Nat × List Char)
  | 0, acc, cs => some (acc, cs)
  | _ + 1, _, [] => none
  | w + 1, acc, c :: cs =>
    if 48 ≤ c.toNat ∧ c.toNat ≤ 57 then
      readDigits w (acc * 10 + (c.toNat - 48)) cs
    else none

theorem digitChar_toNat : ∀ n < 10, (digitChar n).toNat = 48 + n := by decide

theorem readDigits_cons (w acc : Nat) (c : Char) (cs : List Char) :
    readDigits (w + 1) acc (c :: cs) =
      if 48 ≤ c.toNat ∧ c.toNat ≤ 57 then
        readDigits w (acc * 10 + (c.toNat - 48)) cs
      else none := rfl

theorem readDigits_padDigits_aux (w : Nat) :
    ∀ acc n rest, n < 10 ^ w →
      readDigits w acc (padDigits w n ++ rest) = some (acc * 10 ^ w + n, rest) := by
  induction w with
  | zero =>
    intro acc n rest h
    simp only [pow_zero, Nat.lt_one_iff] at h
    simp [padDigits, readDigits, h]
  | succ w ih =>
    intro acc n rest h
    have hpos : 0 < 10 ^ w := pow_pos (by norm_num) w
    have hq : n / 10 ^ w < 10 := by
      rw [Nat.div_lt_iff_lt_mul hpos]
      calc n < 10 ^ (w + 1) := h
        _ = 10 * 10 ^ w := by ring
    have hc := digitChar_toNat _ hq
    have hr : n % 10 ^ w < 10 ^ w := Nat.mod_lt _ hpos
    have hc48 : 48 ≤ (digitChar (n / 10 ^ w)).toNat := by
      rw [hc]; exact Nat.le_add_right _ _
    have hc57 : (digitChar (n / 10 ^ w)).toNat ≤ 57 := by
      rw [hc]; exact Nat.add_le_add_left (Nat.lt_succ_iff.mp hq) 48
    rw [padDigits, List.cons_append, readDigits_cons, if_pos ⟨hc48, hc57⟩, hc,
      Nat.add_sub_cancel_left, ih (acc * 10 + n / 10 ^ w) (n % 10 ^ w) rest hr]
    have hn := Nat.div_add_mod n (10 ^ w)
    have harith : (acc * 10 + n / 10 ^ w) * 10 ^ w + n % 10 ^ w = acc * 10 ^ (w + 1) + n := by
      calc (acc * 10 + n / 10 ^ w) * 10 ^ w + n % 10 ^ w
          = acc * (10 ^ w * 10) + (10 ^ w * (n / 10 ^ w) + n % 10 ^ w) := by ring
        _ = acc * 10 ^ (w + 1) + n := by rw [hn]; ring
    rw [harith]

theorem readDigits_padDigits (w acc n : Nat) (rest : List Char) (h : n < 10 ^ w) :
    readDigits w acc (padDigits w n ++ rest) = some (acc * 10 ^ w + n, rest) :=
  readDigits_padDigits_aux w acc n rest h

theorem readDigits_padDigits_nil (w acc n : Nat) (h : n < 10 ^ w) :
    readDigits w acc (padDigits w n) = some (acc * 10 ^ w + n, []) := by
  have hx := readDigits_padDigits_aux w acc n [] h
  rwa [List.append_nil] at hx

/-- The characters of `datetime.isoformat()` for a timestamp: the format is
`YYYY-MM-DDTHH:MM:SS` followed by `.ffffff` exactly when the microsecond
field is nonzero, as produced by the handler in `src/app.py` line 27. -/
def isoChars (d : DateTime) : List Char :=
  padDigits 4 d.year ++ '-' ::
  (padDigits 2 d.month ++ '-' ::
  (padDigits 2 d.day ++ 'T' ::
  (padDigits 2 d.hour ++ ':' ::
  (padDigits 2 d.minute ++ ':' ::
  (padDigits 2 d.second ++
    (if d.microsecond = 0 then [] else '.' :: padDigits 6 d.microsecond))))))

/-- Model of `datetime.isoformat()`. -/
def isoformat (d : DateTime) : String := String.mk (isoChars d)

/-- Require character `c` at the front of the input. -/
def expectChar (c : Char) : List Char → Option (List Char)
  | x :: xs => if x = c then some xs else none
  | [] => none

theorem expectChar_cons_self (c : Char) (cs : List Char) :
    expectChar c (c :: cs) = some cs := by
  simp [expectChar]

/-- Parse the optional fractional-seconds part: absent (microsecond 0) or a
dot followed by exactly six digits. -/
def parseFrac : List Char → Option (Nat × List Char)
  | [] => some (0, [])
  | '.' :: cs => readDigits 6 0 cs
  | _ => none

/-- Package parsed fields into a timestamp, requiring the input to be fully
consumed and the fields to form a valid calendar timestamp. -/
def mkValid (y mo da h mi s us : Nat) (rest : List Char) : Option DateTime :=
  match rest with
  | [] =>
    if (DateTime.mk y mo da h mi s us).isValid then some ⟨y, mo, da, h, mi, s, us⟩
    else none
  | _ => none

/-- Parse an ISO-8601 datetime of the shape emitted by `isoformat`. -/
def parseIsoChars (cs0 : List Char) : Option DateTime :=
  (readDigits 4 0 cs0).bind fun yr =>
  (expectChar '-' yr.2).bind fun cs2 =>
  (readDigits 2 0 cs2).bind fun mor =>
  (expectChar '-' mor.2).bind fun cs4 =>
  (readDigits 2 0 cs4).bind fun dar =>
  (expectChar 'T' dar.2).bind fun cs6 =>
  (readDigits 2 0 cs6).bind fun hr =>
  (expectChar ':' hr.2).bind fun cs8 =>
  (readDigits 2 0 cs8).bind fun mir =>
  (expectChar ':' mir.2).bind fun cs10 =>
  (readDigits 2 0 cs10).bind fun sr =>
  (parseFrac sr.2).bind fun usr =>
  mkValid yr.1 mor.1 dar.1 hr.1 mir.1 sr.1 usr.1 usr.2

/-- Parse an ISO-8601 datetime string. -/
def isoParse (s : String) : Option DateTime := parseIsoChars s.data

set_option maxHeartbeats 1600000 in
theorem isoParse_isoformat (d : DateTime) (h : d.isValid = true) :
    isoParse (isoformat d) = some d := by
  obtain ⟨y, mo, da, hh, mi, s, us⟩ := d
  simp only [DateTime.isValid, Bool.and_eq_true, decide_eq_true_eq] at h
  obtain ⟨⟨⟨⟨⟨⟨⟨⟨⟨hy1, hy2⟩, hmo1⟩, hmo2⟩, hd1⟩, hd2⟩, hh1⟩, hmi1⟩, hs1⟩, hus1⟩ := h
  have p4 : (10:Nat) ^ 4 = 10000 := by norm_num
  have p2 : (10:Nat) ^ 2 = 100 := by norm_num
  have p6 : (10:Nat) ^ 6 = 1000000 := by norm_num
  have hyb : y < 10 ^ 4 := by omega
  have hmob : mo < 10 ^ 2 := by omega
  have hdb : da < 10 ^ 2 := by
    have hle : daysInMonth y mo ≤ 31 := by
      unfold daysInMonth
      split <;> split <;> omega
    omega
  have hhb : hh < 10 ^ 2 := by omega
  have hmib : mi < 10 ^ 2 := by omega
  have hsb : s < 10 ^ 2 := by omega
  have husb : us < 10 ^ 6 := by omega
  have hvalid : DateTime.isValid ⟨y, mo, da, hh, mi, s, us⟩ = true := by
    simp only [DateTime.isValid, Bool.and_eq_true, decide_eq_true_eq]
    refine ⟨⟨⟨⟨⟨⟨⟨⟨⟨hy1, hy2⟩, hmo1⟩, hmo2⟩, hd1⟩, hd2⟩, hh1⟩, hmi1⟩, hs1⟩, hus1⟩
  by_cases hus : us = 0
  · subst hus
    simp only [isoParse, isoformat, isoChars, reduceIte, List.append_nil, parseIsoChars,
      hyb, hmob, hdb, hhb, hmib, hsb,
      readDigits_padDigits, readDigits_padDigits_nil, Option.some_bind, expectChar_cons_self,
      zero_mul, zero_add, parseFrac, mkValid, hvalid]
  · simp only [isoParse, isoformat, isoChars, if_neg hus, parseIsoChars,
      hyb, hmob, hdb, hhb, hmib, hsb, husb,
      readDigits_padDigits, readDigits_padDigits_nil, Option.some_bind, expectChar_cons_self,
      zero_mul, zero_add, parseFrac, mkValid, hvalid, reduceIte]

/-! ## Startup configuration (`src/app.py` lines 13 and 42-50) -/

/-- Is `c` a character Python's `int()` strips as surrounding whitespace. -/
def isPySpace (c : Char) : Bool :=
  c = ' ' || c = '\t' || c = '\n' || c = '\r' || c.toNat = 11 || c.toNat = 12

/-- Is `c` an ASCII decimal digit. -/
def isAsciiDigit (c : Char) : Bool := 48 ≤ c.toNat && c.toNat ≤ 57

/-- Numeric value of an ASCII digit character. -/
def digitToNat (c : Char) : Nat := c.toNat - 48

/-- Digits of an integer literal after its first digit, allowing a single
underscore between digits as Python's `int()` does. -/
def parseDigitsTail : List Char → Nat → Option Nat
  | [], acc => some acc
  | '_' :: c :: cs, acc =>
    if isAsciiDigit c then parseDigitsTail cs (acc * 10 + digitToNat c) else none
  | '_' :: [], _ => none
  | c :: cs, acc =>
    if isAsciiDigit c then parseDigitsTail cs (acc * 10 + digitToNat c) else none

/-- An unsigned integer literal: a first digit followed by `parseDigitsTail`. -/
def parseIntBody : List Char → Option Nat
  | c :: cs => if isAsciiDigit c then parseDigitsTail cs (digitToNat c) else none
  | [] => none

/-- Strip leading and trailing whitespace. -/
def trimWs (cs : List Char) : List Char :=
  ((cs.dropWhile isPySpace).reverse.dropWhile isPySpace).reverse

/-- Model of Python's built-in `int(s)` applied to a string, as used on
`src/app.py` line 43: surrounding whitespace is stripped, an optional sign
precedes the digits, and `none` models the `ValueError` raised on any other
input (which aborts startup). -/
def pythonInt (s : String) : Option Int :=
  match trimWs s.data with
  | '-' :: cs => (parseIntBody cs).map (fun n => -(n : Int))
  | '+' :: cs => (parseIntBody cs).map (fun n => (n : Int))
  | cs => (parseIntBody cs).map (fun n => (n : Int))

/-- Model of `int(os.environ.get('PORT', 8082))` (`src/app.py` line 43):
`none` for the environment variable means `PORT` is unset, in which case
`os.environ.get` returns the default `8082` and `int` is applied to an
integer, returning it unchanged; `none` as the result models a `ValueError`
that aborts startup before any port is bound. -/
def startupPort (portEnv : Option String) : Option Int :=
  match portEnv with
  | none => some 8082
  | some s => pythonInt s

/-- Model of `os.environ.get('FLASK_ENV') == 'development'`
(`src/app.py` line 44): `os.environ.get` with no default returns `None` when
the variable is unset, and `None == 'development'` is `False`. -/
def debugFromEnv (flaskEnv : Option String) : Bool :=
  flaskEnv == some "development"

/-- The arguments `src/app.py` passes to `app.run` on lines 46-50. -/
structure StartupConfig where
  host : String
  port : Int
  debug : Bool
deriving DecidableEq, Repr

/-- Model of the `__main__` block (`src/app.py` lines 42-50): resolve the
port (aborting on a `ValueError`), resolve the debug flag, and bind the
listener on all interfaces. -/
def startup (portEnv flaskEnv : Option String) : Option StartupConfig :=
  (startupPort portEnv).map (fun p => ⟨"0.0.0.0", p, debugFromEnv flaskEnv⟩)

/-- `app.config['MAX_CONTENT_LENGTH'] = 16 * 1024 * 1024`
(`src/app.py` line 13). -/
def MAX_CONTENT_LENGTH : Nat := 16 * 1024 * 1024

/-! ## HTTP surface -/

/-- HTTP request methods. -/
inductive Method
  | GET
  | HEAD
  | OPTIONS
  | POST
  | PUT
  | DELETE
  | PATCH
deriving DecidableEq, Repr

/-- An incoming HTTP request: method, exact path, and the byte length of the
request body (the only aspect of the body this server ever looks at, via the
`MAX_CONTENT_LENGTH` ceiling). -/
structure Request where
  method : Method
  path : String
  bodyLength : Nat
deriving DecidableEq, Repr

/-- A response body. JSON bodies produced by `jsonify` are modelled as the
flat string-to-string objects the handlers actually build; the remaining
constructors stand for the host framework's own bodies (default HTML error
pages, the automatic `OPTIONS` answer, the interactive debugger page). -/
inductive RespBody
  | jsonBody (fields : List (String × String))
  | htmlBody (content : String)
  | autoOptions
  | defaultErrorPage (status : Nat)
  | debuggerPage
deriving DecidableEq, Repr

/-- The content type each body kind is served with: `jsonify` sets
`application/json`, everything else on this server is HTML. -/
def RespBody.contentType : RespBody → String
  | .jsonBody _ => "application/json"
  | .htmlBody _ => "text/html; charset=utf-8"
  | .autoOptions => "text/html; charset=utf-8"
  | .defaultErrorPage _ => "text/html; charset=utf-8"
  | .debuggerPage => "text/html; charset=utf-8"

/-- An HTTP response: status code and body. -/
structure Response where
  status : Nat
  body : RespBody
deriving DecidableEq, Repr

/-- The JSON object built by `health_check` (`src/app.py` lines 25-28). -/
def healthJson (ts : String) : List (String × String) :=
  [("status", "healthy"), ("timestamp", ts)]

/-- The JSON object returned by the 404 handler (`src/app.py` line 34). -/
def notFoundJson : List (String × String) := [("error", "Not found")]

/-- The JSON object returned by the 500 handler (`src/app.py` line 39). -/
def internalErrorJson : List (String × String) := [("error", "Internal server error")]

/-- Result of running a route handler: a response, or an unhandled
exception escaping the handler. -/
inductive HandlerResult
  | success (resp : Response)
  | exn
deriving DecidableEq, Repr

/-- The `index` handler (`src/app.py` lines 16-19): render
`templates/index.html` as a 200 HTML response; a missing template raises
`TemplateNotFound`, an unhandled exception. -/
def index (templates : String → Option String) : HandlerResult :=
  match templates "index.html" with
  | some page => .success ⟨200, .htmlBody page⟩
  | none => .exn

/-- The `health_check` handler (`src/app.py` lines 22-28): a 200 JSON
response carrying the literal `healthy` and the ISO-8601 rendering of the
clock value read at call time. -/
def health_check (now : DateTime) : HandlerResult :=
  .success ⟨200, .jsonBody (healthJson (isoformat now))⟩

/-- The registered 404 error handler `not_found` (`src/app.py` lines 32-34). -/
def not_found : Response := ⟨404, .jsonBody notFoundJson⟩

/-- The registered 500 error handler `internal_error`
(`src/app.py` lines 37-39). -/
def internal_error : Response := ⟨500, .jsonBody internalErrorJson⟩

/-- The two registered routes (`src/app.py` lines 16 and 22). -/
inductive Route
  | index
  | health
deriving DecidableEq, Repr

/-- Exact-path routing over the static route table: `/` and `/health` are
the only registered rules. -/
def routeOf (p : String) : Option Route :=
  if p = "/" then some .index
  else if p = "/health" then some .health
  else none

/-- Per-request ambient state: the template loader, the clock value read if
the handler runs, and whether a server-side fault is injected into the
handler (modelling an unhandled exception during handling). -/
structure World where
  templates : String → Option String
  now : DateTime
  injectFault : Bool

/-- Run the matched route's handler (`src/app.py` lines 16-28); an injected
fault escapes as an unhandled exception. -/
def runRoute (r : Route) (w : World) : HandlerResult :=
  if w.injectFault then .exn
  else match r with
    | .index => index w.templates
    | .health => health_check w.now

/-- What the dispatch records about one handled request: the response sent
and which pieces of application code ran. -/
structure Outcome where
  response : Response
  routeHandlerRan : Bool
  ran404 : Bool
  ran500 : Bool
deriving DecidableEq, Repr

/-- Modelled from the spec: the host framework's request lifecycle, which is
not part of `src/`. Routing is exact-path matching over the two registered
rules; an unmatched path invokes the registered 404 handler whatever the
method; a request whose body exceeds `MAX_CONTENT_LENGTH` is rejected with
the platform's oversized-payload failure before the route handler can run; a
matched path with a method outside GET/HEAD/OPTIONS gets the framework's own
405 answer (no 405 handler is registered); OPTIONS is answered automatically
without running the handler; an unhandled exception from the handler invokes
the registered 500 handler in production, while in debug mode the
interactive debugger page replaces it. -/
def dispatch (debug : Bool) (w : World) (req : Request) : Outcome :=
  match routeOf req.path with
  | none => ⟨not_found, false, true, false⟩
  | some r =>
    if MAX_CONTENT_LENGTH < req.bodyLength then
      ⟨⟨413, .defaultErrorPage 413⟩, false, false, false⟩
    else if req.method = .OPTIONS then
      ⟨⟨200, .autoOptions⟩, false, false, false⟩
    else if req.method = .GET ∨ req.method = .HEAD then
      match runRoute r w with
      | .success resp => ⟨resp, true, false, false⟩
      | .exn =>
        if debug then ⟨⟨500, .debuggerPage⟩, true, false, false⟩
        else ⟨internal_error, true, false, true⟩
    else ⟨⟨405, .defaultErrorPage 405⟩, false, false, false⟩

/-- Extract the `timestamp` field of a JSON response body. -/
def timestampOf (b : RespBody) : Option String :=
  match b with
  | .jsonBody fields => fields.lookup "timestamp"
  | _ => none

/-! ## Helper lemmas and concrete fixtures -/

/-- A concrete template loader that has `index.html`. -/
def sampleTemplates : String → Option String :=
  fun nm => if nm = "index.html" then some "<html>redactor</html>" else none

/-- A concrete clock value with zero microseconds. -/
def sampleNow : DateTime := ⟨2026, 10, 12, 8, 30, 0, 0⟩

/-- A later concrete clock value with nonzero microseconds. -/
def sampleNow2 : DateTime := ⟨2026, 10, 12, 8, 30, 5, 123456⟩

/-- A fault-free request environment. -/
def sampleWorld : World := ⟨sampleTemplates, sampleNow, false⟩

/-- A fault-free request environment at the later clock value. -/
def sampleWorld2 : World := ⟨sampleTemplates, sampleNow2, false⟩

/-- A request environment with a fault injected into the handler. -/
def faultWorld : World := ⟨sampleTemplates, sampleNow, true⟩

theorem dispatch_health (debug : Bool) (w : World) (len : Nat)
    (hf : w.injectFault = false) (hl : len ≤ MAX_CONTENT_LENGTH) :
    dispatch debug w ⟨.GET, "/health", len⟩ =
      ⟨⟨200, .jsonBody (healthJson (isoformat w.now))⟩, true, false, false⟩ := by
  have hroute : routeOf "/health" = some Route.health := rfl
  have hrun : runRoute Route.health w =
      .success ⟨200, .jsonBody (healthJson (isoformat w.now))⟩ := by
    simp [runRoute, hf, health_check]
  simp only [dispatch, hroute]
  rw [if_neg (Nat.not_lt.mpr hl), if_neg (by decide : ¬(Method.GET = Method.OPTIONS))]
  rw [if_pos (Or.inl True.intro), hrun]

theorem dispatch_index_some (debug : Bool) (w : World) (len : Nat) (page : String)
    (hf : w.injectFault = false) (hl : len ≤ MAX_CONTENT_LENGTH)
    (ht : w.templates "index.html" = some page) :
    dispatch debug w ⟨.GET, "/", len⟩ =
      ⟨⟨200, .htmlBody page⟩, true, false, false⟩ := by
  have hroute : routeOf "/" = some Route.index := rfl
  have hrun : runRoute Route.index w = .success ⟨200, .htmlBody page⟩ := by
    simp [runRoute, hf, index, ht]
  simp only [dispatch, hroute]
  rw [if_neg (Nat.not_lt.mpr hl), if_neg (by decide : ¬(Method.GET = Method.OPTIONS))]
  rw [if_pos (Or.inl True.intro), hrun]

theorem dispatch_fault (debug : Bool) (w : World) (req : Request) (r : Route)
    (hroute : routeOf req.path = some r)
    (hm : req.method = .GET ∨ req.method = .HEAD)
    (hl : req.bodyLength ≤ MAX_CONTENT_LENGTH)
    (hfault : runRoute r w = .exn) :
    dispatch debug w req =
      if debug then ⟨⟨500, .debuggerPage⟩, true, false, false⟩
      else ⟨internal_error, true, false, true⟩ := by
  have hopt : ¬(req.method = Method.OPTIONS) := by
    rcases hm with h | h <;> simp [h]
  simp only [dispatch, hroute]
  rw [if_neg (Nat.not_lt.mpr hl), if_neg hopt, if_pos hm, hfault]

/-! ## Claims -/

/-- C1: every GET request to `/health` (within the size ceiling, with no
injected fault) gets status 200 with a JSON body whose `status` field is the
string `healthy` and whose `timestamp` field is the ISO-8601 rendering of
the clock value read at call time — it parses back as a valid ISO-8601
datetime equal to that very clock value, for every clock value, so it is
computed at call time and never cached. -/
theorem health_ok (debug : Bool) (w : World) (len : Nat)
    (hv : w.now.isValid = true) (hf : w.injectFault = false)
    (hl : len ≤ MAX_CONTENT_LENGTH) :
    (dispatch debug w ⟨.GET, "/health", len⟩).response.status = 200 ∧
    (dispatch debug w ⟨.GET, "/health", len⟩).response.body =
      .jsonBody (healthJson (isoformat w.now)) ∧
    (healthJson (isoformat w.now)).lookup "status" = some "healthy" ∧
    timestampOf (dispatch debug w ⟨.GET, "/health", len⟩).response.body =
      some (isoformat w.now) ∧
    isoParse (isoformat w.now) = some w.now := by
  rw [dispatch_health debug w len hf hl]
  exact ⟨rfl, rfl, rfl, rfl, isoParse_isoformat _ hv⟩

theorem health_ok_witness :
    sampleWorld.now.isValid = true ∧
    ((dispatch false sampleWorld ⟨.GET, "/health", 0⟩).response.status = 200 ∧
    (dispatch false sampleWorld ⟨.GET, "/health", 0⟩).response.body =
      .jsonBody (healthJson (isoformat sampleWorld.now)) ∧
    (healthJson (isoformat sampleWorld.now)).lookup "status" = some "healthy" ∧
    timestampOf (dispatch false sampleWorld ⟨.GET, "/health", 0⟩).response.body =
      some (isoformat sampleWorld.now) ∧
    isoParse (isoformat sampleWorld.now) = some sampleWorld.now) :=
  ⟨by decide, health_ok false sampleWorld 0 (by decide) rfl (by decide)⟩

/-- C2: any request whose path is neither `/` nor `/health`, whatever its
method and body size, is answered by the registered 404 handler: status 404
with exactly the JSON object with field `error` equal to `Not found`. -/
theorem not_found_unmatched (debug : Bool) (w : World) (req : Request)
    (h1 : req.path ≠ "/") (h2 : req.path ≠ "/health") :
    (dispatch debug w req).response.status = 404 ∧
    (dispatch debug w req).response.body = .jsonBody notFoundJson ∧
    (dispatch debug w req).ran404 = true := by
  have hroute : routeOf req.path = none := by
    simp [routeOf, h1, h2]
  simp [dispatch, hroute, not_found]

theorem not_found_unmatched_witness :
    ("/foo" ≠ "/" ∧ "/foo" ≠ "/health") ∧
    ((dispatch false sampleWorld ⟨.POST, "/foo", 0⟩).response.status = 404 ∧
    (dispatch false sampleWorld ⟨.POST, "/foo", 0⟩).response.body = .jsonBody notFoundJson ∧
    (dispatch false sampleWorld ⟨.POST, "/foo", 0⟩).ran404 = true) :=
  ⟨⟨by decide, by decide⟩,
    not_found_unmatched false sampleWorld ⟨.POST, "/foo", 0⟩ (by decide) (by decide)⟩

/-- C8: the startup debug flag is `true` exactly when the `FLASK_ENV`
environment variable is set and equal to the literal string `development`;
any other value, or an unset variable, yields production mode. -/
theorem debug_iff_development (fe : Option String) :
    debugFromEnv fe = true ↔ fe = some "development" := by
  simp [debugFromEnv]

/-- C3 counterexample: with debug mode on (FLASK_ENV=development), a GET
request to `/health` whose handler raises an unhandled fault is answered
with status 500 but with the interactive debugger page, not the JSON object
built by the registered 500 handler — so the claim as stated, which demands
that body for every faulting request, fails at this input. -/
theorem internal_error_debug_cex :
    runRoute Route.health faultWorld = .exn ∧
    (dispatch true faultWorld ⟨.GET, "/health", 0⟩).response.status = 500 ∧
    (dispatch true faultWorld ⟨.GET, "/health", 0⟩).response.body ≠
      .jsonBody internalErrorJson := by
  refine ⟨rfl, rfl, ?_⟩
  decide

/-- C3 (amended): in production (non-debug) mode, any request whose handler
raises an unhandled server-side fault is answered by the registered 500
handler: status 500 with exactly the JSON object with field `error` equal to
`Internal server error`. -/
theorem internal_error_production (w : World) (req : Request) (r : Route)
    (hroute : routeOf req.path = some r)
    (hm : req.method = .GET ∨ req.method = .HEAD)
    (hl : req.bodyLength ≤ MAX_CONTENT_LENGTH)
    (hfault : runRoute r w = .exn) :
    (dispatch false w req).response.status = 500 ∧
    (dispatch false w req).response.body = .jsonBody internalErrorJson ∧
    (dispatch false w req).ran500 = true := by
  rw [dispatch_fault false w req r hroute hm hl hfault]
  exact ⟨rfl, rfl, rfl⟩

theorem internal_error_production_witness :
    (routeOf "/health" = some Route.health ∧
      runRoute Route.health faultWorld = .exn ∧ 0 ≤ MAX_CONTENT_LENGTH) ∧
    ((dispatch false faultWorld ⟨.GET, "/health", 0⟩).response.status = 500 ∧
    (dispatch false faultWorld ⟨.GET, "/health", 0⟩).response.body =
      .jsonBody internalErrorJson ∧
    (dispatch false faultWorld ⟨.GET, "/health", 0⟩).ran500 = true) :=
  ⟨⟨rfl, rfl, by decide⟩,
    internal_error_production faultWorld ⟨.GET, "/health", 0⟩ Route.health rfl
      (Or.inl rfl) (by decide) rfl⟩

/-- C4: a request whose body exceeds the fixed 16 MiB startup limit never
reaches a route handler — the route-handler branch is unreachable — and on a
matched route it is rejected with the platform's oversized-payload status. -/
theorem oversized_rejected (debug : Bool) (w : World) (req : Request)
    (h : MAX_CONTENT_LENGTH < req.bodyLength) :
    (dispatch debug w req).routeHandlerRan = false ∧
    (∀ r, routeOf req.path = some r → (dispatch debug w req).response.status = 413) := by
  cases hroute : routeOf req.path with
  | none => simp [dispatch, hroute]
  | some r => simp [dispatch, hroute, h]

theorem oversized_rejected_witness :
    MAX_CONTENT_LENGTH < 16 * 1024 * 1024 + 1 ∧
    ((dispatch false sampleWorld ⟨.GET, "/health", 16 * 1024 * 1024 + 1⟩).routeHandlerRan
        = false ∧
      (∀ r, routeOf "/health" = some r →
        (dispatch false sampleWorld
            ⟨.GET, "/health", 16 * 1024 * 1024 + 1⟩).response.status = 413)) :=
  ⟨by decide,
    oversized_rejected false sampleWorld ⟨.GET, "/health", 16 * 1024 * 1024 + 1⟩ (by decide)⟩

/-- C5 counterexample: with `PORT` set to the unparsable string `abc`,
`int()` raises a `ValueError` and startup aborts — no listener is bound at
all, in particular not to the claimed default 8082. -/
theorem port_unparsable_cex :
    startupPort (some "abc") = none ∧ ¬(startupPort (some "abc") = some 8082) ∧
    startup (some "abc") none = none := by
  refine ⟨rfl, ?_, rfl⟩
  decide

/-- C5 (amended): with `PORT` unset the listener binds the default 8082; with
`PORT` set to a string `int()` parses, the listener binds that value; with
`PORT` set to a string `int()` rejects, startup raises `ValueError` and no
listener is bound. -/
theorem port_resolution (s : String) (fe : Option String) :
    startupPort none = some 8082 ∧
    startup none fe = some ⟨"0.0.0.0", 8082, debugFromEnv fe⟩ ∧
    (∀ n : Int, pythonInt s = some n →
      startup (some s) fe = some ⟨"0.0.0.0", n, debugFromEnv fe⟩) ∧
    (pythonInt s = none → startup (some s) fe = none) := by
  refine ⟨rfl, rfl, ?_, ?_⟩
  · intro n hn
    simp [startup, startupPort, hn]
  · intro hn
    simp [startup, startupPort, hn]

theorem port_resolution_witness :
    pythonInt "9090" = some 9090 ∧
    startup (some "9090") none = some ⟨"0.0.0.0", 9090, false⟩ :=
  ⟨rfl, (port_resolution "9090" none).2.2.1 9090 rfl⟩

/-- C6: for two successive GET `/health` calls in the same process, if the
clock read by the second call is no earlier than the clock read by the first
(field-lexicographic order on datetimes), then the returned timestamps,
decoded back to datetimes, are in non-decreasing order. -/
theorem health_monotone (debug1 debug2 : Bool) (w1 w2 : World) (len1 len2 : Nat)
    (hv1 : w1.now.isValid = true) (hv2 : w2.now.isValid = true)
    (hf1 : w1.injectFault = false) (hf2 : w2.injectFault = false)
    (hl1 : len1 ≤ MAX_CONTENT_LENGTH) (hl2 : len2 ≤ MAX_CONTENT_LENGTH)
    (hclock : w1.now.key ≤ w2.now.key) :
    ∃ ts1 ts2 d1 d2,
      timestampOf (dispatch debug1 w1 ⟨.GET, "/health", len1⟩).response.body = some ts1 ∧
      timestampOf (dispatch debug2 w2 ⟨.GET, "/health", len2⟩).response.body = some ts2 ∧
      isoParse ts1 = some d1 ∧ isoParse ts2 = some d2 ∧ d1.key ≤ d2.key := by
  refine ⟨isoformat w1.now, isoformat w2.now, w1.now, w2.now, ?_, ?_,
    isoParse_isoformat _ hv1, isoParse_isoformat _ hv2, hclock⟩
  · rw [dispatch_health debug1 w1 len1 hf1 hl1]
    rfl
  · rw [dispatch_health debug2 w2 len2 hf2 hl2]
    rfl

theorem health_monotone_witness :
    (sampleWorld.now.isValid = true ∧ sampleWorld2.now.isValid = true ∧
      sampleWorld.now.key ≤ sampleWorld2.now.key) ∧
    (∃ ts1 ts2 d1 d2,
      timestampOf (dispatch false sampleWorld ⟨.GET, "/health", 0⟩).response.body
        = some ts1 ∧
      timestampOf (dispatch false sampleWorld2 ⟨.GET, "/health", 0⟩).response.body
        = some ts2 ∧
      isoParse ts1 = some d1 ∧ isoParse ts2 = some d2 ∧ d1.key ≤ d2.key) :=
  ⟨⟨by decide, by decide, by decide⟩,
    health_monotone false false sampleWorld sampleWorld2 0 0 (by decide) (by decide)
      rfl rfl (by decide) (by decide) (by decide)⟩

/-- C7: every GET request to `/` whose template asset is present is answered
with status 200, the static page body, an HTML content type, and no error
handler runs; the only failure mode is a missing template asset, which in
production surfaces as a 500. -/
theorem index_ok (debug : Bool) (w : World) (len : Nat)
    (hf : w.injectFault = false) (hl : len ≤ MAX_CONTENT_LENGTH) :
    (∀ page, w.templates "index.html" = some page →
      (dispatch debug w ⟨.GET, "/", len⟩).response = ⟨200, .htmlBody page⟩ ∧
      (dispatch debug w ⟨.GET, "/", len⟩).response.body.contentType =
        "text/html; charset=utf-8" ∧
      (dispatch debug w ⟨.GET, "/", len⟩).ran404 = false ∧
      (dispatch debug w ⟨.GET, "/", len⟩).ran500 = false) ∧
    (w.templates "index.html" = none →
      (dispatch false w ⟨.GET, "/", len⟩).response.status = 500) := by
  constructor
  · intro page ht
    rw [dispatch_index_some debug w len page hf hl ht]
    exact ⟨rfl, rfl, rfl, rfl⟩
  · intro ht
    have hfault : runRoute Route.index w = .exn := by
      simp [runRoute, hf, index, ht]
    rw [dispatch_fault false w ⟨.GET, "/", len⟩ Route.index rfl (Or.inl rfl) hl hfault]
    rfl

theorem index_ok_witness :
    sampleWorld.templates "index.html" = some "<html>redactor</html>" ∧
    ((dispatch false sampleWorld ⟨.GET, "/", 0⟩).response =
      ⟨200, .htmlBody "<html>redactor</html>"⟩ ∧
    (dispatch false sampleWorld ⟨.GET, "/", 0⟩).response.body.contentType =
      "text/html; charset=utf-8" ∧
    (dispatch false sampleWorld ⟨.GET, "/", 0⟩).ran404 = false ∧
    (dispatch false sampleWorld ⟨.GET, "/", 0⟩).ran500 = false) :=
  ⟨rfl, (index_ok false sampleWorld 0 rfl (by decide)).1 "<html>redactor</html>" rfl⟩

/-- C9: a request to a registered path (`/` or `/health`) with a method other
than GET, HEAD or OPTIONS is answered by the framework with 405 Method Not
Allowed: the route handler does not run, the JSON 404 handler does not run,
and the body is not the JSON object with field `error` equal to `Not found`. -/
theorem wrong_method_405 (debug : Bool) (w : World) (req : Request) (r : Route)
    (hroute : routeOf req.path = some r)
    (hm1 : req.method ≠ .GET) (hm2 : req.method ≠ .HEAD) (hm3 : req.method ≠ .OPTIONS)
    (hl : req.bodyLength ≤ MAX_CONTENT_LENGTH) :
    (dispatch debug w req).response.status = 405 ∧
    (dispatch debug w req).routeHandlerRan = false ∧
    (dispatch debug w req).ran404 = false ∧
    (dispatch debug w req).response.body ≠ .jsonBody notFoundJson := by
  have hgoal : dispatch debug w req =
      ⟨⟨405, .defaultErrorPage 405⟩, false, false, false⟩ := by
    simp only [dispatch, hroute]
    rw [if_neg (Nat.not_lt.mpr hl), if_neg hm3, if_neg ?hgh]
    case hgh =>
      rintro (h | h)
      · exact hm1 h
      · exact hm2 h
  rw [hgoal]
  refine ⟨rfl, rfl, rfl, ?_⟩
  decide

theorem wrong_method_405_witness :
    (routeOf "/" = some Route.index ∧ 0 ≤ MAX_CONTENT_LENGTH) ∧
    ((dispatch false sampleWorld ⟨.POST, "/", 0⟩).response.status = 405 ∧
    (dispatch false sampleWorld ⟨.POST, "/", 0⟩).routeHandlerRan = false ∧
    (dispatch false sampleWorld ⟨.POST, "/", 0⟩).ran404 = false ∧
    (dispatch false sampleWorld ⟨.POST, "/", 0⟩).response.body ≠ .jsonBody notFoundJson) :=
  ⟨⟨rfl, by decide⟩,
    wrong_method_405 false sampleWorld ⟨.POST, "/", 0⟩ Route.index rfl
      (by decide) (by decide) (by decide) (by decide)⟩

/-- C10: with debug mode enabled, an unhandled fault during handling of a
routed GET/HEAD request yields status 500 with the interactive debugger
page: the registered 500 handler does not run and the body is not the JSON
object with field `error` equal to `Internal server error`. -/
theorem debug_fault_debugger (w : World) (req : Request) (r : Route)
    (hroute : routeOf req.path = some r)
    (hm : req.method = .GET ∨ req.method = .HEAD)
    (hl : req.bodyLength ≤ MAX_CONTENT_LENGTH)
    (hfault : runRoute r w = .exn) :
    (dispatch true w req).response.status = 500 ∧
    (dispatch true w req).response.body = .debuggerPage ∧
    (dispatch true w req).ran500 = false ∧
    (dispatch true w req).response.body ≠ .jsonBody internalErrorJson := by
  rw [dispatch_fault true w req r hroute hm hl hfault]
  refine ⟨rfl, rfl, rfl, ?_⟩
  decide

theorem debug_fault_debugger_witness :
    (routeOf "/health" = some Route.health ∧
      runRoute Route.health faultWorld = .exn) ∧
    ((dispatch true faultWorld ⟨.GET, "/health", 0⟩).response.status = 500 ∧
    (dispatch true faultWorld ⟨.GET, "/health", 0⟩).response.body = .debuggerPage ∧
    (dispatch true faultWorld ⟨.GET, "/health", 0⟩).ran500 = false ∧
    (dispatch true faultWorld ⟨.GET, "/health", 0⟩).response.body ≠
      .jsonBody internalErrorJson) :=
  ⟨⟨rfl, rfl⟩,
    debug_fault_debugger faultWorld ⟨.GET, "/health", 0⟩ Route.health rfl
      (Or.inl rfl) (by decide) rfl⟩
